import Mathlib

/-!
Verification development for the golangci-worker analysis pipeline.

The Go sources are shallowly embedded: every external effect (GitHub API
calls, git clone, state-store PUT/GET, linter runner, reporter, temp files)
is represented by an oracle field fixing the outcome of that call, and each
run produces an explicit trace of effect events.  The embedded functions follow
the control flow of `app/analyze/processors/github_go_pr.go`,
`app/analyze/process.go`, `app/lib/goutils/workspaces/go2.go` and the
`TempDirShell` executor line by line.
-/

deriving instance DecidableEq for Except

namespace GolangciWorker

/-! ### Basic string helpers mirroring Go `strings` functions -/

/-- Mirrors `strings.ToUpper` (ASCII suffices for the PR states used here). -/
def strToUpper (s : String) : String := String.mk (s.data.map Char.toUpper)

/-- Mirrors `strings.ToLower`. -/
def strToLower (s : String) : String := String.mk (s.data.map Char.toLower)

/-- Tests whether `needle` matches at the head of `hay`. -/
def matchesAtStart : List Char → List Char → Bool
  | [], _ => true
  | _ :: _, [] => false
  | a :: as, b :: bs => a == b && matchesAtStart as bs

/-- Tests whether `needle` occurs somewhere in `hay`. -/
def occursIn : List Char → List Char → Bool
  | needle, [] => matchesAtStart needle []
  | needle, h :: t => matchesAtStart needle (h :: t) || occursIn needle t

/-- Mirrors `strings.Contains`: true iff `sub` occurs in `s`
(`strings.Contains s "" = true`). -/
def strContains (s sub : String) : Bool :=
  occursIn sub.data s.data

/-! ### Constants from `app/analyze/processors` (process.go second part) -/

def internalError : String := "Internal error"

def statusSentToQueue : String := "sent_to_queue"

def statusProcessing : String := "processing"

def noGoFilesToAnalyzeMessage : String := "No Go files to analyze"

def noGoFilesToAnalyzeErr : String := "no go files to analyze"

/-- The Go runtime panic message raised by dereferencing a nil pointer
(`storePatch` evaluates `f.Name()` on a nil `*os.File`). -/
def nilPointerPanic : String :=
  "runtime error: invalid memory address or nil pointer dereference"

/-! ### Check status (`github.Status`)

The `github` package is not in the snapshot; the status constants are the
four lowercase strings given by the check-status enumeration of the spec and the
`processed/<check-status>` state encoding. -/

inductive Status
  | pending
  | success
  | failure
  | error
deriving DecidableEq

def Status.str : Status → String
  | .pending => "pending"
  | .success => "success"
  | .failure => "failure"
  | .error => "error"

/-- The condition tested at github_go_pr.go:365: the details URL is attached
exactly to these three statuses. -/
def isTerminalStatus (s : Status) : Bool :=
  s == .failure || s == .success || s == .error

/-! ### Data model -/

/-- An issue is opaque to the pipeline; only the count is inspected. -/
structure Issue where
  text : String
deriving DecidableEq

/-- Shape of `result.Result` as seen by the pipeline: issues plus opaque JSON. -/
structure AnalysisResult where
  issues : List Issue
  resultJSON : String
deriving DecidableEq

/-- The claim-relevant projection of `prstate.State`: status string,
reported issues count, and the public error stored in the result JSON. -/
structure StateRec where
  status : String
  reportedIssuesCount : Nat
  resultError : String
deriving DecidableEq

structure PullRequest where
  state : String
  number : Nat
  headSHA : String
deriving DecidableEq

/-- The dynamically-typed Go errors inspected by
`processWithGuaranteedGithubStatus`: `*IgnoredError`,
`*errorutils.InternalError`, `*errorutils.BadInputError`, and the default
bucket of plain (`fmt.Errorf`) errors. -/
inductive GoError
  | ignored (status : Status) (statusDesc : String) (isRecoverable : Bool)
  | internal (publicDesc : String) (privateDesc : String)
  | badInput (publicDesc : String)
  | other (msg : String)
deriving DecidableEq

/-- Outcome of a Go computation that may panic instead of returning. -/
inductive PanicOr (α : Type)
  | ok (a : α)
  | panicked (v : String)
deriving DecidableEq

/-- Errors the linter runner can return.  The runner cannot construct a
`*processors.IgnoredError` (that type lives in the processors package and is
only built inside `work` for merged/closed PRs), so its error domain is
internal / bad-input / plain errors. -/
inductive RunnerError
  | internal (publicDesc : String) (privateDesc : String)
  | badInput (publicDesc : String)
  | other (msg : String)
deriving DecidableEq

def RunnerError.toGoError : RunnerError → GoError
  | .internal pub priv => .internal pub priv
  | .badInput pub => .badInput pub
  | .other m => .other m

/-! ### Executor (`TempDirShell` + `shell`)

`TempDirShell.WithEnv` / `WithWorkDir` copy the receiver by value and mutate
only the copy (git_test.go second part, lines 86–96).  The underlying
`shell` type is not in the snapshot. -/

/-- Modelled from the spec: the `shell` environment representation is not in
the snapshot; per the spec an executor carries "environment overrides
(mapping from name to value, last-write-wins)" and a working directory. -/
structure Executor where
  wd : String
  env : List (String × String)
deriving DecidableEq

/-- Modelled from the spec: `shell.SetEnv` appends an override; lookups take
the last write. -/
def Executor.setEnv (e : Executor) (k v : String) : Executor :=
  { e with env := e.env ++ [(k, v)] }

/-- Last-write-wins lookup in the environment overrides. -/
def Executor.getEnv (e : Executor) (k : String) : Option String :=
  (e.env.reverse.find? (fun kv => kv.1 == k)).map (fun kv => kv.2)

/-- Mirrors `TempDirShell.WithEnv`: copy the executor, set the entry on the copy. -/
def Executor.withEnv (e : Executor) (k v : String) : Executor :=
  e.setEnv k v

/-- Mirrors `TempDirShell.WithWorkDir`: copy the executor, overwrite the workdir. -/
def Executor.withWorkDir (e : Executor) (wd : String) : Executor :=
  { e with wd := wd }

/-! ### Effect trace -/

/-- One externally visible effect of a pipeline run. -/
inductive Event
  | getPullRequest
  | setCommitStatus (status : Status) (desc : String) (url : String)
  | fetchRepo
  | runGoenvbuild
  | updateState (s : StateRec)
  | getPullRequestPatch
  | getState
  | report (sha : String) (issuesCount : Nat)
  | publicWarn (stage : String) (text : String)
deriving DecidableEq

/-! ### Configuration and oracles -/

/-- Per-job configuration: repository identity, environment, the experiment
flag selecting the workspace strategy (`new_pr_prepare`, i.e. whether
`newWorkspaceInstaller` is non-nil), the secret map, and the base executor. -/
structure Config where
  owner : String
  name : String
  analysisGUID : String
  webRoot : String
  strategyB : Bool
  secrets : List (String × String)
  baseExec : Executor
deriving DecidableEq

/-- A step of the goenvbuild structured log. -/
structure LogStep where
  description : String
  error : String
deriving DecidableEq

/-- A group of the goenvbuild structured log. -/
structure LogGroup where
  name : String
  steps : List LogStep
deriving DecidableEq

abbrev ResLog := List LogGroup

/-- The decoded `goenvbuild` JSON document (`goenvresult.Result`). -/
structure GoenvResult where
  error : String
  workDir : String
  environment : List (String × String)
  log : ResLog
deriving DecidableEq

/-- Outcomes of every external call a run can make.  `Except (Bool × String)`
carries the `github.IsRecoverableError` classification of a failed adapter
call together with the message. -/
structure Oracle where
  getPullRequest : Except (Bool × String) PullRequest
  /-- Modelled from the spec: the legacy `workspaces.Go.Setup` (strategy A)
  is not in the snapshot; per the spec and `newGithubGoPR` it prepares the
  GOPATH layout and can fail, while the clone and dependency fetch of
  strategy A happen later inside `prepareRepo` (which is in the snapshot). -/
  gwSetup : Option String
  go2Fetch : Option String
  go2Run : Except String String
  /-- Result of `json.Unmarshal` on the goenvbuild stdout. -/
  go2Unmarshal : Except String GoenvResult
  getPatch : Except (Bool × String) String
  tempFile : Except String String
  writePatch : Option String
  copyPatch : Option String
  getState : Except String StateRec
  runner : PanicOr (Except RunnerError AnalysisResult)
  report : PanicOr (Option String)
  fetchRepo : Option String
  fetchDeps : Except String (List (String × String))
  stack : String
deriving DecidableEq

/-! ### Secret redaction -/

/-- Modelled from the spec: `escapeErrorText` (result collector, not in the
snapshot) substitutes every key of the secret map occurring in the text by
its replacement (`\x7bhidden\x7d`, or `$GOPATH` for the gopath entry). -/
def escapeErrorText (text : String) (secrets : List (String × String)) : String :=
  secrets.foldl (fun t kv => t.replace kv.1 kv.2) text

/-! ### storePatch (github_go_pr.go:128–144)

`defer os.Remove(f.Name())` evaluates `f.Name()` at the defer statement,
before `err` is checked; when `ioutil.TempFile` failed, `f` is nil and the
call panics. -/

def storePatch (o : Oracle) : PanicOr (Option String) :=
  match o.tempFile with
  | .error _ => .panicked nilPointerPanic
  | .ok fname =>
    match o.writePatch with
    | some e => .ok (some ("can\x27t write patch to temp file " ++ fname ++ ": " ++ e))
    | none =>
      match o.copyPatch with
      | some e => .ok (some ("can\x27t copy patch file: " ++ e))
      | none => .ok none

/-! ### getGithubStatusForIssues (github_go_pr.go:231–240) -/

def getGithubStatusForIssues (issues : List Issue) : Status × String :=
  if issues.length == 0 then (.success, "No issues found!")
  else if issues.length == 1 then (.failure, "1 issue found")
  else (.failure, Nat.repr issues.length ++ " issues found")

/-! ### setCommitStatus (github_go_pr.go:363–375) -/

def commitStatusURL (c : Config) (prNumber : Nat) : String :=
  c.webRoot ++ "/r/github.com/" ++ c.owner ++ "/" ++ c.name ++ "/pulls/" ++
    Nat.repr prNumber

def setCommitStatus (c : Config) (pr : PullRequest) (status : Status)
    (desc : String) : Event :=
  Event.setCommitStatus status desc
    (if isTerminalStatus status then commitStatusURL c pr.number else "")

/-! ### updateAnalysisState (github_go_pr.go:205–229) -/

def updateAnalysisState (res : Option AnalysisResult) (status : Status)
    (publicError : String) : Event :=
  Event.updateState
    { status := "processed/" ++ status.str
      reportedIssuesCount := match res with | none => 0 | some r => r.issues.length
      resultError := publicError }

/-! ### prepareRepo (github_go_pr.go:154–203) -/

/-- The resLog walk of `prepareRepo` when the new installer is active:
one public warning per step with a non-empty error, redacted. -/
def walkLog (c : Config) (resLog : ResLog) : List Event :=
  resLog.flatMap (fun sg =>
    (sg.steps.filter (fun s => s.error != "")).map (fun s =>
      Event.publicWarn sg.name
        (escapeErrorText (s.description ++ " error: " ++ s.error) c.secrets)))

def prepareRepo (c : Config) (resLog : ResLog) (o : Oracle) :
    List Event × Option GoError :=
  if c.strategyB then
    (walkLog c resLog, none)
  else
    match o.fetchRepo with
    | some e =>
      ([Event.fetchRepo],
       some (.internal "can\x27t clone git repo" ("can\x27t clone git repo: " ++ e)))
    | none =>
      match o.fetchDeps with
      | .error _ => ([Event.fetchRepo], none)
      | .ok warns =>
        ([Event.fetchRepo] ++ warns.map (fun w =>
          Event.publicWarn "prepare repo"
            (escapeErrorText ("Fetch deps: " ++ w.1 ++ ": " ++ w.2) c.secrets)),
         none)

/-! ### work (github_go_pr.go:311–361) -/

/-- The `(res, err)` pairs `work` can actually return: `err = nil` always
comes with a non-nil result; a reporter panic keeps the runner result in the
named return value. -/
inductive WorkOut
  | success (res : AnalysisResult)
  | failure (res : Option AnalysisResult) (e : GoError)
deriving DecidableEq

/-- The internal error built by the recover handler of `work`. -/
def panicInternalError (o : Oracle) (v : String) : GoError :=
  .internal "golangci-worker panic-ed" ("panic occured: " ++ v ++ ", " ++ o.stack)

def work (c : Config) (pr : PullRequest) (resLog : ResLog) (o : Oracle) :
    List Event × WorkOut :=
  let prState := strToUpper pr.state
  if prState == "MERGED" || prState == "CLOSED" then
    ([Event.publicWarn "process"
        ("Pull Request is already " ++ prState ++ ", skip analysis")],
     .failure none
       (.ignored .success ("Pull Request is already " ++ strToLower prState) false))
  else
    let pp := prepareRepo c resLog o
    match pp.2 with
    | some e => (pp.1, .failure none e)
    | none =>
      match o.runner with
      | .panicked v => (pp.1, .failure none (panicInternalError o v))
      | .ok (.error e) => (pp.1, .failure none e.toGoError)
      | .ok (.ok res) =>
        match o.report with
        | .panicked v =>
          (pp.1 ++ [Event.report pr.headSHA res.issues.length],
           .failure (some res) (panicInternalError o v))
        | .ok (some e) =>
          (pp.1 ++ [Event.report pr.headSHA res.issues.length],
           .failure none
             (.internal "can\x27t send pull request comments to github"
               ("can\x27t send pull request comments to github: " ++ e)))
        | .ok none =>
          (pp.1 ++ [Event.report pr.headSHA res.issues.length], .success res)

/-! ### processWithGuaranteedGithubStatus (github_go_pr.go:267–309) -/

/-- The values chosen by the error-classification block. -/
structure Finalization where
  res : Option AnalysisResult
  status : Status
  statusDesc : String
  publicError : String
  retErr : Option GoError
deriving DecidableEq

def classifyOutcome (c : Config) (wout : WorkOut) : Finalization :=
  match wout with
  | .success res =>
    let sd := getGithubStatusForIssues res.issues
    { res := some res, status := sd.1, statusDesc := sd.2, publicError := ""
      retErr := none }
  | .failure res? e =>
    match e with
    | .ignored st d recov =>
      { res := res?, status := st, statusDesc := d, publicError := ""
        retErr := if recov then some (.ignored st d recov) else none }
    | .internal pub priv =>
      if strContains priv noGoFilesToAnalyzeErr then
        { res := res?, status := .success, statusDesc := noGoFilesToAnalyzeMessage
          publicError := noGoFilesToAnalyzeMessage, retErr := none }
      else
        { res := res?, status := .error, statusDesc := pub, publicError := pub
          retErr := some (.internal pub priv) }
    | .badInput pub =>
      { res := res?, status := .error, statusDesc := "can\x27t analyze"
        publicError := escapeErrorText pub c.secrets, retErr := none }
    | .other m =>
      { res := res?, status := .error, statusDesc := internalError
        publicError := internalError, retErr := some (.other m) }

def processWithGuaranteedGithubStatus (c : Config) (pr : PullRequest)
    (resLog : ResLog) (o : Oracle) : List Event × Option GoError :=
  let w := work c pr resLog o
  let f := classifyOutcome c w.2
  (w.1 ++ [updateAnalysisState f.res f.status f.publicError,
           setCommitStatus c pr f.status f.statusDesc],
   f.retErr)

/-! ### Go2.Setup (go2.go:32–59) -/

def go2Setup (c : Config) (o : Oracle) :
    List Event × Except String (Executor × ResLog) :=
  match o.go2Fetch with
  | some e => ([Event.fetchRepo], .error ("failed to fetch repo: " ++ e))
  | none =>
    match o.go2Run with
    | .error e =>
      ([Event.fetchRepo, Event.runGoenvbuild], .error ("goenvbuild failed: " ++ e))
    | .ok _out =>
      match o.go2Unmarshal with
      | .error e =>
        ([Event.fetchRepo, Event.runGoenvbuild],
         .error ("failed to unmarshal goenvbuild result json: " ++ e))
      | .ok r =>
        if r.error != "" then
          ([Event.fetchRepo, Event.runGoenvbuild],
           .error ("goenvbuild internal error: " ++ r.error))
        else
          ([Event.fetchRepo, Event.runGoenvbuild],
           .ok (r.environment.foldl (fun ex kv => ex.withEnv kv.1 kv.2)
                  (c.baseExec.withWorkDir r.workDir),
               r.log))

/-! ### Process (github_go_pr.go:378–446) -/

/-- The workspace-setup stage of `Process`: either the legacy in-process
`gw.Setup` (strategy A, empty resLog) or the new installer `Go2.Setup`
(strategy B). -/
def setupOutcome (c : Config) (o : Oracle) : List Event × Except String ResLog :=
  if c.strategyB then
    let g := go2Setup c o
    (g.1, g.2.map (fun exl => exl.2))
  else
    match o.gwSetup with
    | some e => ([], .error e)
    | none => ([], .ok [])

/-- Stage 6: read current state; if still `sent_to_queue`, write it back with
status `processing`.  Errors are logged only. -/
def queueStateEvents (o : Oracle) : List Event :=
  match o.getState with
  | .error _ => [Event.getState]
  | .ok st =>
    if st.status == statusSentToQueue then
      [Event.getState, Event.updateState { st with status := statusProcessing }]
    else
      [Event.getState]

def Process (c : Config) (o : Oracle) : List Event × PanicOr (Option GoError) :=
  match o.getPullRequest with
  | .error rm =>
    ([Event.getPullRequest],
     .ok (some (.other (if rm.1 then "can\x27t get pull request: " ++ rm.2 else rm.2))))
  | .ok pr =>
    let ev1 := [Event.getPullRequest,
                setCommitStatus c pr .pending "GolangCI is reviewing your Pull Request..."]
    let s := setupOutcome c o
    match s.2 with
    | .error emsg =>
      (ev1 ++ s.1 ++
        [updateAnalysisState none .error
           (escapeErrorText ("failed to setup workspace: " ++ emsg) c.secrets),
         setCommitStatus c pr .error "failed to setup"],
       .ok (if c.strategyB then none
            else some (.other ("can\x27t setup go workspace: " ++ emsg))))
    | .ok resLog =>
      match o.getPatch with
      | .error rm =>
        (ev1 ++ s.1 ++ [Event.getPullRequestPatch],
         .ok (some (.other (if rm.1 then "can\x27t get patch: " ++ rm.2 else rm.2))))
      | .ok _patch =>
        match storePatch o with
        | .panicked v =>
          (ev1 ++ s.1 ++ [Event.getPullRequestPatch], .panicked v)
        | .ok (some e) =>
          (ev1 ++ s.1 ++ [Event.getPullRequestPatch],
           .ok (some (.other ("can\x27t store patch: " ++ e))))
        | .ok none =>
          let w := processWithGuaranteedGithubStatus c pr resLog o
          (ev1 ++ s.1 ++ [Event.getPullRequestPatch] ++ queueStateEvents o ++ w.1,
           .ok w.2)

/-! ### Queue task handlers (process.go:59–71)

Both registered handlers (`analyze` via `analyzeWrapped`, `analyzeV2`) run
through `analyzeWrappedV2`, whose deferred recover turns a panic of the
inner call into a returned error. -/

def analyzeWrappedV2 (inner : PanicOr (Option String)) (stack : String) :
    Option String :=
  match inner with
  | .panicked v => some ("panic recovered: " ++ v ++ ", " ++ stack)
  | .ok r => r

/-! ### Trace predicates -/

/-- The three terminal state encodings: `"processed/"` followed by a
terminal check-status name. -/
def isTerminalStateStatusStr (s : String) : Bool :=
  s == "processed/success" || s == "processed/failure" || s == "processed/error"

def isTerminalStateEvent : Event → Bool
  | .updateState st => isTerminalStateStatusStr st.status
  | _ => false

def isTerminalStatusEvent : Event → Bool
  | .setCommitStatus st _ _ => isTerminalStatus st
  | _ => false

def isSetStatusEvent : Event → Bool
  | .setCommitStatus _ _ _ => true
  | _ => false

/-- An event that is neither a terminal state write nor a terminal commit
status. -/
def neutralEvent (e : Event) : Bool :=
  !(isTerminalStateEvent e) && !(isTerminalStatusEvent e)

/-- An event that is neither any commit-status event nor a terminal state
write; all stage traces between the pending status and finalization consist
of such events. -/
def quietEvent (e : Event) : Bool :=
  !(isTerminalStateEvent e) && !(isSetStatusEvent e)

def stepSeen (seen : Bool) (e : Event) : Bool :=
  match e with
  | .updateState st => seen || isTerminalStateStatusStr st.status
  | _ => seen

def stepOk (seen : Bool) (e : Event) : Bool :=
  match e with
  | .setCommitStatus st _ _ => !isTerminalStatus st || seen
  | _ => true

/-- Scans a trace and checks that every terminal commit-status event comes
after some terminal (`processed/*`) state write. -/
def stateBeforeStatus : Bool → List Event → Bool
  | _, [] => true
  | seen, e :: rest => stepOk seen e && stateBeforeStatus (stepSeen seen e) rest

/-! ### Algebra of the trace predicates -/

theorem stepSeen_true (e : Event) : stepSeen true e = true := by
  cases e <;> simp [stepSeen]

theorem stepOk_true (e : Event) : stepOk true e = true := by
  cases e <;> simp [stepOk]

theorem stateBeforeStatus_true (l : List Event) :
    stateBeforeStatus true l = true := by
  induction l with
  | nil => rfl
  | cons e rest ih =>
    simp [stateBeforeStatus, stepOk_true, stepSeen_true, ih]

theorem neutral_stepSeen {e : Event} (h : neutralEvent e = true) (seen : Bool) :
    stepSeen seen e = seen := by
  cases e <;> simp_all [neutralEvent, stepSeen, isTerminalStateEvent]

theorem neutral_stepOk {e : Event} (h : neutralEvent e = true) (seen : Bool) :
    stepOk seen e = true := by
  cases e <;> simp_all [neutralEvent, stepOk, isTerminalStatusEvent]

theorem stateBeforeStatus_skip {l : List Event}
    (h : ∀ e ∈ l, neutralEvent e = true) (seen : Bool) (r : List Event) :
    stateBeforeStatus seen (l ++ r) = stateBeforeStatus seen r := by
  induction l with
  | nil => rfl
  | cons e rest ih =>
    have he : neutralEvent e = true := h e (List.mem_cons_self e rest)
    have hr : ∀ x ∈ rest, neutralEvent x = true :=
      fun x hx => h x (List.mem_cons_of_mem e hx)
    simp [stateBeforeStatus, neutral_stepOk he, neutral_stepSeen he, ih hr]

theorem stateBeforeStatus_of_neutral {l : List Event}
    (h : ∀ e ∈ l, neutralEvent e = true) (seen : Bool) :
    stateBeforeStatus seen l = true := by
  have := stateBeforeStatus_skip h seen []
  simpa using this

theorem countP_state_of_neutral {l : List Event}
    (h : ∀ e ∈ l, neutralEvent e = true) :
    l.countP isTerminalStateEvent = 0 := by
  rw [List.countP_eq_zero]
  intro e he
  have := h e he
  simp [neutralEvent] at this
  simp [this.1]

theorem countP_status_of_neutral {l : List Event}
    (h : ∀ e ∈ l, neutralEvent e = true) :
    l.countP isTerminalStatusEvent = 0 := by
  rw [List.countP_eq_zero]
  intro e he
  have := h e he
  simp [neutralEvent] at this
  simp [this.2]

/-! ### Quietness of the stage traces -/

theorem quiet_walkLog (c : Config) (rl : ResLog) :
    ∀ e ∈ walkLog c rl, quietEvent e = true := by
  intro e he
  simp only [walkLog, List.mem_flatMap, List.mem_map, List.mem_filter] at he
  obtain ⟨sg, _, s, _, rfl⟩ := he
  rfl

theorem quiet_prepareRepo (c : Config) (rl : ResLog) (o : Oracle) :
    ∀ e ∈ (prepareRepo c rl o).1, quietEvent e = true := by
  intro e he
  unfold prepareRepo at he
  by_cases hb : c.strategyB
  · simp only [hb, if_true] at he
    exact quiet_walkLog c rl e he
  · simp only [hb, if_false] at he
    cases hf : o.fetchRepo with
    | some m =>
      rw [hf] at he
      simp at he
      subst he
      rfl
    | none =>
      rw [hf] at he
      cases hd : o.fetchDeps with
      | error m =>
        rw [hd] at he
        simp at he
        subst he
        rfl
      | ok warns =>
        rw [hd] at he
        simp at he
        rcases he with he | ⟨a, b, -, he⟩
        · subst he; rfl
        · subst he; rfl

theorem quiet_work (c : Config) (pr : PullRequest) (rl : ResLog) (o : Oracle) :
    ∀ e ∈ (work c pr rl o).1, quietEvent e = true := by
  intro e he
  unfold work at he
  by_cases hcl : (strToUpper pr.state == "MERGED" || strToUpper pr.state == "CLOSED") = true
  · simp only [hcl, if_true] at he
    simp at he
    subst he
    rfl
  · simp only [Bool.not_eq_true] at hcl
    simp only [hcl, if_false] at he
    cases hp : (prepareRepo c rl o).2 with
    | some ge =>
      rw [hp] at he
      simp at he
      exact quiet_prepareRepo c rl o e he
    | none =>
      rw [hp] at he
      cases hr : o.runner with
      | panicked v =>
        rw [hr] at he
        simp at he
        exact quiet_prepareRepo c rl o e he
      | ok rres =>
        rw [hr] at he
        cases rres with
        | error re =>
          simp at he
          exact quiet_prepareRepo c rl o e he
        | ok res =>
          cases hrep : o.report with
          | panicked v =>
            rw [hrep] at he
            simp at he
            rcases he with he | he
            · exact quiet_prepareRepo c rl o e he
            · subst he; rfl
          | ok ro =>
            rw [hrep] at he
            cases ro with
            | some m =>
              simp at he
              rcases he with he | he
              · exact quiet_prepareRepo c rl o e he
              · subst he; rfl
            | none =>
              simp at he
              rcases he with he | he
              · exact quiet_prepareRepo c rl o e he
              · subst he; rfl

theorem quiet_go2Setup (c : Config) (o : Oracle) :
    ∀ e ∈ (go2Setup c o).1, quietEvent e = true := by
  intro e he
  unfold go2Setup at he
  cases hf : o.go2Fetch with
  | some m =>
    rw [hf] at he
    simp at he
    subst he
    rfl
  | none =>
    rw [hf] at he
    cases hrun : o.go2Run with
    | error m =>
      rw [hrun] at he
      simp at he
      rcases he with he | he <;> (subst he; rfl)
    | ok out =>
      rw [hrun] at he
      cases hu : o.go2Unmarshal with
      | error m =>
        rw [hu] at he
        simp at he
        rcases he with he | he <;> (subst he; rfl)
      | ok r =>
        rw [hu] at he
        by_cases herr : (r.error != "") = true
        · simp only [herr, if_true] at he
          simp at he
          rcases he with he | he <;> (subst he; rfl)
        · simp only [Bool.not_eq_true] at herr
          simp only [herr, if_false] at he
          simp at he
          rcases he with he | he <;> (subst he; rfl)

theorem quiet_setupOutcome (c : Config) (o : Oracle) :
    ∀ e ∈ (setupOutcome c o).1, quietEvent e = true := by
  intro e he
  unfold setupOutcome at he
  by_cases hb : c.strategyB
  · simp only [hb, if_true] at he
    exact quiet_go2Setup c o e he
  · simp only [hb, if_false] at he
    cases hg : o.gwSetup with
    | some m => rw [hg] at he; simp at he
    | none => rw [hg] at he; simp at he

theorem quiet_queueStateEvents (o : Oracle) :
    ∀ e ∈ queueStateEvents o, quietEvent e = true := by
  intro e he
  unfold queueStateEvents at he
  cases hg : o.getState with
  | error m =>
    rw [hg] at he
    simp at he
    subst he
    rfl
  | ok st =>
    rw [hg] at he
    by_cases hq : (st.status == statusSentToQueue) = true
    · simp only [hq, if_true] at he
      simp at he
      rcases he with he | he <;> (subst he; rfl)
    · simp only [Bool.not_eq_true] at hq
      simp only [hq, if_false] at he
      simp at he
      subst he
      rfl

/-! ### Bridges between the predicates -/

theorem neutralEvent_of_quiet {e : Event} (h : quietEvent e = true) :
    neutralEvent e = true := by
  cases e <;> simp_all [quietEvent, neutralEvent, isSetStatusEvent,
    isTerminalStatusEvent, isTerminalStateEvent]

theorem neutral_list_of_quiet {l : List Event}
    (h : ∀ e ∈ l, quietEvent e = true) : ∀ e ∈ l, neutralEvent e = true :=
  fun e he => neutralEvent_of_quiet (h e he)

theorem filter_setStatus_of_quiet {l : List Event}
    (h : ∀ e ∈ l, quietEvent e = true) : l.filter isSetStatusEvent = [] := by
  rw [List.filter_eq_nil_iff]
  intro e he
  have hq := h e he
  cases e <;> simp_all [quietEvent, isSetStatusEvent]

theorem filter_state_of_quiet {l : List Event}
    (h : ∀ e ∈ l, quietEvent e = true) : l.filter isTerminalStateEvent = [] := by
  rw [List.filter_eq_nil_iff]
  intro e he
  have hq := h e he
  cases e <;> simp_all [quietEvent, isTerminalStateEvent]

theorem neutral_prefix_pending (c : Config) (pr : PullRequest) (d : String) :
    ∀ e ∈ [Event.getPullRequest, setCommitStatus c pr .pending d],
      neutralEvent e = true := by
  intro e he
  simp at he
  rcases he with he | he <;> subst he
  · rfl
  · simp [setCommitStatus, neutralEvent, isTerminalStateEvent,
      isTerminalStatusEvent, isTerminalStatus]

theorem processed_terminal (st : Status) (h : isTerminalStatus st = true) :
    isTerminalStateStatusStr ("processed/" ++ st.str) = true := by
  cases st with
  | pending => simp [isTerminalStatus] at h
  | success => decide
  | failure => decide
  | error => decide

theorem sbs_final_pair (c : Config) (pr : PullRequest) (r? : Option AnalysisResult)
    (st : Status) (pe d : String) :
    stateBeforeStatus false
      [updateAnalysisState r? st pe, setCommitStatus c pr st d] = true := by
  cases st <;>
    simp [stateBeforeStatus, stepOk, stepSeen, updateAnalysisState,
      setCommitStatus, Status.str, isTerminalStateStatusStr, isTerminalStatus]

/-! ### Trace equations for the branches of `Process` -/

theorem process_eq_prFail (c : Config) (o : Oracle) (rm : Bool × String)
    (h : o.getPullRequest = .error rm) :
    Process c o =
      ([Event.getPullRequest],
       .ok (some (.other
         (if rm.1 then "can\x27t get pull request: " ++ rm.2 else rm.2)))) := by
  simp only [Process, h]

theorem process_eq_setupFail (c : Config) (o : Oracle) (pr : PullRequest)
    (emsg : String) (h1 : o.getPullRequest = .ok pr)
    (h2 : (setupOutcome c o).2 = .error emsg) :
    Process c o =
      ([Event.getPullRequest,
        setCommitStatus c pr .pending "GolangCI is reviewing your Pull Request..."]
       ++ (setupOutcome c o).1 ++
       [updateAnalysisState none .error
          (escapeErrorText ("failed to setup workspace: " ++ emsg) c.secrets),
        setCommitStatus c pr .error "failed to setup"],
       .ok (if c.strategyB then none
            else some (.other ("can\x27t setup go workspace: " ++ emsg)))) := by
  simp only [Process, h1, h2]

theorem process_eq_patchFail (c : Config) (o : Oracle) (pr : PullRequest)
    (resLog : ResLog) (rm : Bool × String) (h1 : o.getPullRequest = .ok pr)
    (h2 : (setupOutcome c o).2 = .ok resLog) (h3 : o.getPatch = .error rm) :
    Process c o =
      ([Event.getPullRequest,
        setCommitStatus c pr .pending "GolangCI is reviewing your Pull Request..."]
       ++ (setupOutcome c o).1 ++ [Event.getPullRequestPatch],
       .ok (some (.other (if rm.1 then "can\x27t get patch: " ++ rm.2 else rm.2)))) := by
  simp only [Process, h1, h2, h3]

theorem process_eq_storeFail (c : Config) (o : Oracle) (pr : PullRequest)
    (resLog : ResLog) (p e : String) (h1 : o.getPullRequest = .ok pr)
    (h2 : (setupOutcome c o).2 = .ok resLog) (h3 : o.getPatch = .ok p)
    (h4 : storePatch o = .ok (some e)) :
    Process c o =
      ([Event.getPullRequest,
        setCommitStatus c pr .pending "GolangCI is reviewing your Pull Request..."]
       ++ (setupOutcome c o).1 ++ [Event.getPullRequestPatch],
       .ok (some (.other ("can\x27t store patch: " ++ e)))) := by
  simp only [Process, h1, h2, h3, h4]

theorem process_eq_storePanic (c : Config) (o : Oracle) (pr : PullRequest)
    (resLog : ResLog) (p v : String) (h1 : o.getPullRequest = .ok pr)
    (h2 : (setupOutcome c o).2 = .ok resLog) (h3 : o.getPatch = .ok p)
    (h4 : storePatch o = .panicked v) :
    Process c o =
      ([Event.getPullRequest,
        setCommitStatus c pr .pending "GolangCI is reviewing your Pull Request..."]
       ++ (setupOutcome c o).1 ++ [Event.getPullRequestPatch],
       .panicked v) := by
  simp only [Process, h1, h2, h3, h4]

theorem process_eq_main (c : Config) (o : Oracle) (pr : PullRequest)
    (resLog : ResLog) (p : String) (h1 : o.getPullRequest = .ok pr)
    (h2 : (setupOutcome c o).2 = .ok resLog) (h3 : o.getPatch = .ok p)
    (h4 : storePatch o = .ok none) :
    Process c o =
      ([Event.getPullRequest,
        setCommitStatus c pr .pending "GolangCI is reviewing your Pull Request..."]
       ++ (setupOutcome c o).1 ++ [Event.getPullRequestPatch]
       ++ queueStateEvents o
       ++ ((work c pr resLog o).1 ++
           [updateAnalysisState (classifyOutcome c (work c pr resLog o).2).res
              (classifyOutcome c (work c pr resLog o).2).status
              (classifyOutcome c (work c pr resLog o).2).publicError,
            setCommitStatus c pr (classifyOutcome c (work c pr resLog o).2).status
              (classifyOutcome c (work c pr resLog o).2).statusDesc]),
       .ok (classifyOutcome c (work c pr resLog o).2).retErr) := by
  simp only [Process, h1, h2, h3, h4, processWithGuaranteedGithubStatus]

/-! ### The classification always picks a terminal commit status -/

theorem classify_internal_terminal (c : Config) (r? : Option AnalysisResult)
    (pub priv : String) :
    isTerminalStatus (classifyOutcome c (.failure r? (.internal pub priv))).status
      = true := by
  unfold classifyOutcome
  by_cases h : strContains priv noGoFilesToAnalyzeErr = true
  · simp [h, isTerminalStatus]
  · simp only [Bool.not_eq_true] at h
    simp [h, isTerminalStatus]

theorem classify_success_terminal (c : Config) (res : AnalysisResult) :
    isTerminalStatus (classifyOutcome c (.success res)).status = true := by
  unfold classifyOutcome getGithubStatusForIssues
  by_cases h0 : (res.issues.length == 0) = true
  · simp [h0, isTerminalStatus]
  · simp only [Bool.not_eq_true] at h0
    by_cases h1 : (res.issues.length == 1) = true
    · simp [h0, h1, isTerminalStatus]
    · simp only [Bool.not_eq_true] at h1
      simp [h0, h1, isTerminalStatus]

theorem work_status_terminal (c : Config) (pr : PullRequest) (rl : ResLog)
    (o : Oracle) :
    isTerminalStatus (classifyOutcome c (work c pr rl o).2).status = true := by
  unfold work
  by_cases hcl : (strToUpper pr.state == "MERGED"
      || strToUpper pr.state == "CLOSED") = true
  · simp [hcl, classifyOutcome, isTerminalStatus]
  · simp only [Bool.not_eq_true] at hcl
    simp only [hcl, if_false]
    cases hp : (prepareRepo c rl o).2 with
    | some ge =>
      simp only []
      cases ge with
      | ignored st d rec =>
        exfalso
        revert hp
        unfold prepareRepo
        by_cases hb : c.strategyB
        · simp [hb]
        · simp only [hb, if_false]
          cases o.fetchRepo with
          | some m => simp
          | none => cases o.fetchDeps <;> simp
      | internal pub priv => exact classify_internal_terminal c none pub priv
      | badInput pub => simp [classifyOutcome, isTerminalStatus]
      | other m => simp [classifyOutcome, isTerminalStatus]
    | none =>
      cases hr : o.runner with
      | panicked v =>
        simp only [panicInternalError]
        exact classify_internal_terminal c none _ _
      | ok rres =>
        cases rres with
        | error re =>
          cases re with
          | internal pub priv =>
            simp only [RunnerError.toGoError]
            exact classify_internal_terminal c none pub priv
          | badInput pub => simp [RunnerError.toGoError, classifyOutcome, isTerminalStatus]
          | other m => simp [RunnerError.toGoError, classifyOutcome, isTerminalStatus]
        | ok res =>
          cases hrep : o.report with
          | panicked v =>
            simp only [panicInternalError]
            exact classify_internal_terminal c (some res) _ _
          | ok ro =>
            cases ro with
            | some m => exact classify_internal_terminal c none _ _
            | none => exact classify_success_terminal c res

/-! ### Concrete fixtures used by counterexamples and witnesses -/

def baseExecEx : Executor := { wd := "/tmp/golangci.x1", env := [] }

def prEx : PullRequest := { state := "open", number := 7, headSHA := "abc123" }

/-- A job configuration running the legacy in-process workspace strategy,
with `WEB_ROOT` unset (empty). -/
def cfgA : Config :=
  { owner := "o", name := "n", analysisGUID := "guid-1", webRoot := ""
    strategyB := false, secrets := [("tok-secret-123", "\x7bhidden\x7d")]
    baseExec := baseExecEx }

/-- The same job under the new installer (`new_pr_prepare` active). -/
def cfgB : Config := { cfgA with strategyB := true }

def goenvOk : GoenvResult :=
  { error := "", workDir := "/tmp/golangci.x1/gopath/src/github.com/o/n"
    environment := [("GOPATH", "/tmp/golangci.x1/gopath")], log := [] }

/-- An oracle on which every external call succeeds and the analyzer finds
no issues. -/
def okOracle : Oracle :=
  { getPullRequest := .ok prEx
    gwSetup := none
    go2Fetch := none
    go2Run := .ok "out"
    go2Unmarshal := .ok goenvOk
    getPatch := .ok "diff"
    tempFile := .ok "/tmp/golangci.diff123"
    writePatch := none
    copyPatch := none
    getState := .ok { status := "sent_to_queue", reportedIssuesCount := 0
                      resultError := "" }
    runner := .ok (.ok { issues := [], resultJSON := "lintres" })
    report := .ok none
    fetchRepo := none
    fetchDeps := .ok []
    stack := "STACK" }

/-! ### Counting the finalization pair -/

theorem countP_pair_state (c : Config) (pr : PullRequest)
    (r? : Option AnalysisResult) (st : Status) (pe d : String)
    (h : isTerminalStatus st = true) :
    List.countP isTerminalStateEvent
      [updateAnalysisState r? st pe, setCommitStatus c pr st d] = 1 := by
  have h1 : isTerminalStateEvent (updateAnalysisState r? st pe) = true := by
    show isTerminalStateStatusStr ("processed/" ++ st.str) = true
    exact processed_terminal st h
  have h2 : isTerminalStateEvent (setCommitStatus c pr st d) = false := rfl
  simp [List.countP_cons, h1, h2]

theorem countP_pair_status (c : Config) (pr : PullRequest)
    (r? : Option AnalysisResult) (st : Status) (pe d : String)
    (h : isTerminalStatus st = true) :
    List.countP isTerminalStatusEvent
      [updateAnalysisState r? st pe, setCommitStatus c pr st d] = 1 := by
  have h1 : isTerminalStatusEvent (updateAnalysisState r? st pe) = false := rfl
  have h2 : isTerminalStatusEvent (setCommitStatus c pr st d) = true := by
    show isTerminalStatus st = true
    exact h
  simp [List.countP_cons, h1, h2]

/-- The events before the finalization pair — the get-PR and pending-status
events, the setup trace, the get-patch event, the queue-state events and the
work trace — are all neutral. -/
theorem neutral_prefix_setup (c : Config) (o : Oracle) (pr : PullRequest)
    (d : String) :
    ∀ e ∈ ([Event.getPullRequest, setCommitStatus c pr .pending d]
           ++ (setupOutcome c o).1),
      neutralEvent e = true :=
  List.forall_mem_append.mpr
    ⟨neutral_prefix_pending c pr d,
     neutral_list_of_quiet (quiet_setupOutcome c o)⟩

theorem neutral_patchEvent :
    ∀ e ∈ [Event.getPullRequestPatch], neutralEvent e = true := by
  intro e he
  simp at he
  subst he
  rfl

theorem neutral_upto_patch (c : Config) (o : Oracle) (pr : PullRequest)
    (d : String) :
    ∀ e ∈ (([Event.getPullRequest, setCommitStatus c pr .pending d]
            ++ (setupOutcome c o).1) ++ [Event.getPullRequestPatch]),
      neutralEvent e = true :=
  List.forall_mem_append.mpr
    ⟨neutral_prefix_setup c o pr d, neutral_patchEvent⟩

theorem neutral_upto_queue (c : Config) (o : Oracle) (pr : PullRequest)
    (d : String) :
    ∀ e ∈ ((([Event.getPullRequest, setCommitStatus c pr .pending d]
             ++ (setupOutcome c o).1) ++ [Event.getPullRequestPatch])
           ++ queueStateEvents o),
      neutralEvent e = true :=
  List.forall_mem_append.mpr
    ⟨neutral_upto_patch c o pr d,
     neutral_list_of_quiet (quiet_queueStateEvents o)⟩

/-! ### Claim theorems -/

/-- Claim C4: in finalization, the terminal analysis state record is always
written (UpdateState called) before the terminal commit status is set
(SetCommitStatus called), for every terminal outcome — stated over every
run of `Process`: scanning any trace left to right, every terminal commit
status is preceded by a terminal state write. -/
theorem c4_state_before_status (c : Config) (o : Oracle) :
    stateBeforeStatus false (Process c o).1 = true := by
  cases hpr : o.getPullRequest with
  | error rm =>
    rw [process_eq_prFail c o rm hpr]
    rfl
  | ok pr =>
    cases hs : (setupOutcome c o).2 with
    | error e =>
      rw [process_eq_setupFail c o pr e hpr hs]
      rw [stateBeforeStatus_skip (neutral_prefix_setup c o pr _) false]
      exact sbs_final_pair c pr none .error _ _
    | ok resLog =>
      cases hp : o.getPatch with
      | error rm =>
        rw [process_eq_patchFail c o pr resLog rm hpr hs hp]
        exact stateBeforeStatus_of_neutral (neutral_upto_patch c o pr _) false
      | ok p =>
        cases hsp : storePatch o with
        | panicked v =>
          rw [process_eq_storePanic c o pr resLog p v hpr hs hp hsp]
          exact stateBeforeStatus_of_neutral (neutral_upto_patch c o pr _) false
        | ok x =>
          cases x with
          | some e =>
            rw [process_eq_storeFail c o pr resLog p e hpr hs hp hsp]
            exact stateBeforeStatus_of_neutral (neutral_upto_patch c o pr _) false
          | none =>
            rw [process_eq_main c o pr resLog p hpr hs hp hsp]
            rw [stateBeforeStatus_skip (neutral_upto_queue c o pr _) false]
            rw [stateBeforeStatus_skip
                  (neutral_list_of_quiet (quiet_work c pr resLog o)) false]
            exact sbs_final_pair c pr _ _ _ _

/-- Claim C1 counterexample: a job enters the pipeline (the PR is fetched
and the pending status is set), the patch fetch then fails, and `Process`
returns having written no terminal state record and no terminal commit
status — the guarantee does not hold for every stage failure. -/
theorem c1_terminal_writes_counterexample :
    (Process cfgA { okOracle with getPatch := .error (true, "timeout") }).1.countP
        isTerminalStateEvent = 0
    ∧ (Process cfgA { okOracle with getPatch := .error (true, "timeout") }).1.countP
        isTerminalStatusEvent = 0
    ∧ (Process cfgA { okOracle with getPatch := .error (true, "timeout") }).2
        ≠ .ok none := by
  refine ⟨by decide, by decide, by decide⟩

/-- Claim C1 (amended): exactly one terminal state record and exactly one
terminal commit status are produced in every run in which the PR fetch
succeeds and the run does not return early at the patch-fetch or patch-store
steps (workspace-setup failure included); runs failing at PR fetch, patch
fetch or patch store return without terminal writes. -/
theorem c1_terminal_writes_amended (c : Config) (o : Oracle) (pr : PullRequest)
    (h1 : o.getPullRequest = .ok pr)
    (h2 : (∃ e, (setupOutcome c o).2 = .error e) ∨
          ((∃ p, o.getPatch = .ok p) ∧ storePatch o = .ok none)) :
    (Process c o).1.countP isTerminalStateEvent = 1
    ∧ (Process c o).1.countP isTerminalStatusEvent = 1 := by
  have hterm : isTerminalStatus Status.error = true := by decide
  rcases h2 with ⟨e, he⟩ | ⟨⟨p, hp⟩, hsp⟩
  · rw [process_eq_setupFail c o pr e h1 he]
    constructor
    · rw [List.countP_append,
          countP_state_of_neutral (neutral_prefix_setup c o pr _),
          countP_pair_state c pr none .error _ _ hterm]
    · rw [List.countP_append,
          countP_status_of_neutral (neutral_prefix_setup c o pr _),
          countP_pair_status c pr none .error _ _ hterm]
  · cases hs : (setupOutcome c o).2 with
    | error e =>
      rw [process_eq_setupFail c o pr e h1 hs]
      constructor
      · rw [List.countP_append,
            countP_state_of_neutral (neutral_prefix_setup c o pr _),
            countP_pair_state c pr none .error _ _ hterm]
      · rw [List.countP_append,
            countP_status_of_neutral (neutral_prefix_setup c o pr _),
            countP_pair_status c pr none .error _ _ hterm]
    | ok resLog =>
      rw [process_eq_main c o pr resLog p h1 hs hp hsp]
      have hw := work_status_terminal c pr resLog o
      constructor
      · rw [List.countP_append,
            countP_state_of_neutral (neutral_upto_queue c o pr _),
            List.countP_append,
            countP_state_of_neutral
              (neutral_list_of_quiet (quiet_work c pr resLog o)),
            countP_pair_state c pr _ _ _ _ hw]
      · rw [List.countP_append,
            countP_status_of_neutral (neutral_upto_queue c o pr _),
            List.countP_append,
            countP_status_of_neutral
              (neutral_list_of_quiet (quiet_work c pr resLog o)),
            countP_pair_status c pr _ _ _ _ hw]

/-- Claim C1 witness: the amended theorem applied to a fully successful
concrete run. -/
theorem c1_terminal_writes_witness :
    (Process cfgA okOracle).1.countP isTerminalStateEvent = 1
    ∧ (Process cfgA okOracle).1.countP isTerminalStatusEvent = 1 :=
  c1_terminal_writes_amended cfgA okOracle prEx rfl
    (Or.inr ⟨⟨"diff", rfl⟩, rfl⟩)

/-! ### More stage facts used by C2, C3 and C6 -/

theorem setupOutcome_trace_legacy (c : Config) (o : Oracle)
    (hB : c.strategyB = false) : (setupOutcome c o).1 = [] := by
  unfold setupOutcome
  rw [hB]
  cases o.gwSetup <;> rfl

theorem fetchRepo_not_mem_queue (o : Oracle) :
    Event.fetchRepo ∉ queueStateEvents o := by
  intro hmem
  unfold queueStateEvents at hmem
  cases hg : o.getState with
  | error m =>
    rw [hg] at hmem
    simp at hmem
  | ok st =>
    rw [hg] at hmem
    by_cases h : (st.status == statusSentToQueue) = true
    · simp [h] at hmem
    · simp [h] at hmem

/-- Fixture: a workspace-setup failure. -/
def o2c : Oracle := { okOracle with gwSetup := some "no disk space" }

/-- Fixture: a job whose pull request is already closed. -/
def closedPREx : PullRequest := { prEx with state := "closed" }

/-- Fixture: the oracle of the closed-PR job. -/
def o3c : Oracle := { okOracle with getPullRequest := .ok closedPREx }

/-- Claim C2 counterexample: under the legacy in-process workspace strategy a
workspace-setup failure makes `Process` return a non-nil wrapped error, not
nil as claimed. -/
theorem c2_setup_failure_counterexample :
    (Process cfgA o2c).2
      = .ok (some (.other "can\x27t setup go workspace: no disk space"))
    ∧ (Process cfgA o2c).2 ≠ .ok none := by
  refine ⟨by decide, by decide⟩

/-- Claim C2 (amended): when workspace provisioning fails, the pipeline
writes the terminal error state carrying the redacted message, then sets the
error commit status; `Process` returns nil under the new workspace installer
and a non-nil wrapped error under the legacy in-process strategy. -/
theorem c2_setup_failure_amended (c : Config) (o : Oracle) (pr : PullRequest)
    (emsg : String) (h1 : o.getPullRequest = .ok pr)
    (h2 : (setupOutcome c o).2 = .error emsg) :
    (Process c o).1 =
      [Event.getPullRequest,
       setCommitStatus c pr .pending "GolangCI is reviewing your Pull Request..."]
      ++ (setupOutcome c o).1 ++
      [Event.updateState
         { status := "processed/error", reportedIssuesCount := 0
           resultError :=
             escapeErrorText ("failed to setup workspace: " ++ emsg) c.secrets },
       Event.setCommitStatus .error "failed to setup" (commitStatusURL c pr.number)]
    ∧ (Process c o).2 =
        .ok (if c.strategyB then none
             else some (.other ("can\x27t setup go workspace: " ++ emsg))) := by
  rw [process_eq_setupFail c o pr emsg h1 h2]
  exact ⟨rfl, rfl⟩

/-- Claim C2 witness: the amended theorem at a concrete legacy-strategy
setup failure. -/
theorem c2_setup_failure_witness :
    (Process cfgA o2c).1 =
      [Event.getPullRequest,
       setCommitStatus cfgA prEx .pending "GolangCI is reviewing your Pull Request..."]
      ++ (setupOutcome cfgA o2c).1 ++
      [Event.updateState
         { status := "processed/error", reportedIssuesCount := 0
           resultError :=
             escapeErrorText ("failed to setup workspace: " ++ "no disk space")
               cfgA.secrets },
       Event.setCommitStatus .error "failed to setup" (commitStatusURL cfgA prEx.number)]
    ∧ (Process cfgA o2c).2 =
        .ok (if cfgA.strategyB then none
             else some (.other ("can\x27t setup go workspace: " ++ "no disk space"))) :=
  c2_setup_failure_amended cfgA o2c prEx "no disk space" rfl rfl

/-- Claim C3 counterexample: under the new workspace installer the repository
is cloned for a CLOSED pull request (inside workspace setup, before the PR
state is examined), contradicting "no clone performed"; everything else of
the run completes with a nil error. -/
theorem c3_closed_pr_counterexample :
    Event.fetchRepo ∈ (Process cfgB o3c).1
    ∧ (Process cfgB o3c).2 = .ok none := by
  refine ⟨by decide, by decide⟩

/-- Claim C3 (amended): for a CLOSED pull request the pipeline sets commit
status pending, then terminal success with description "Pull Request is
already closed", persists exactly the terminal state `processed/success`,
and `Process` returns nil; no clone is performed under the legacy in-process
strategy, while the new installer clones during workspace setup. -/
theorem c3_closed_pr_amended (c : Config) (o : Oracle) (pr : PullRequest)
    (resLog : ResLog) (p : String)
    (h1 : o.getPullRequest = .ok pr)
    (hclosed : strToUpper pr.state = "CLOSED")
    (h2 : (setupOutcome c o).2 = .ok resLog)
    (h3 : o.getPatch = .ok p)
    (h4 : storePatch o = .ok none) :
    (Process c o).1.filter isSetStatusEvent =
      [Event.setCommitStatus .pending "GolangCI is reviewing your Pull Request..." "",
       Event.setCommitStatus .success "Pull Request is already closed"
         (commitStatusURL c pr.number)]
    ∧ (Process c o).1.filter isTerminalStateEvent =
        [Event.updateState
          { status := "processed/success", reportedIssuesCount := 0
            resultError := "" }]
    ∧ (Process c o).2 = .ok none
    ∧ (c.strategyB = false → Event.fetchRepo ∉ (Process c o).1) := by
  have hwork : work c pr resLog o =
      ([Event.publicWarn "process" "Pull Request is already CLOSED, skip analysis"],
       .failure none (.ignored .success "Pull Request is already closed" false)) := by
    have hc : (("CLOSED" == "MERGED" || "CLOSED" == "CLOSED") = true) := by decide
    simp only [work]
    rw [hclosed, if_pos hc]
    decide
  rw [process_eq_main c o pr resLog p h1 h2 h3 h4, hwork]
  refine ⟨?_, ?_, rfl, ?_⟩
  · simp only [List.filter_append,
      filter_setStatus_of_quiet (quiet_setupOutcome c o),
      filter_setStatus_of_quiet (quiet_queueStateEvents o)]
    simp [isSetStatusEvent, setCommitStatus, updateAnalysisState, classifyOutcome,
      isTerminalStatus]
  · simp only [List.filter_append,
      filter_state_of_quiet (quiet_setupOutcome c o),
      filter_state_of_quiet (quiet_queueStateEvents o)]
    simp [isTerminalStateEvent, setCommitStatus, updateAnalysisState,
      classifyOutcome, isTerminalStateStatusStr, Status.str]
  · intro hB
    rw [setupOutcome_trace_legacy c o hB]
    intro hmem
    simp [setCommitStatus, updateAnalysisState, fetchRepo_not_mem_queue o]
      at hmem

/-- Claim C3 witness: the amended theorem at a concrete closed-PR job under
the legacy strategy. -/
theorem c3_closed_pr_witness :
    (Process cfgA o3c).1.filter isSetStatusEvent =
      [Event.setCommitStatus .pending "GolangCI is reviewing your Pull Request..." "",
       Event.setCommitStatus .success "Pull Request is already closed"
         (commitStatusURL cfgA closedPREx.number)]
    ∧ (Process cfgA o3c).1.filter isTerminalStateEvent =
        [Event.updateState
          { status := "processed/success", reportedIssuesCount := 0
            resultError := "" }]
    ∧ (Process cfgA o3c).2 = .ok none
    ∧ (cfgA.strategyB = false → Event.fetchRepo ∉ (Process cfgA o3c).1) :=
  c3_closed_pr_amended cfgA o3c closedPREx [] "diff" rfl (by decide) rfl rfl rfl

/-- Fixture: the runner fails with the no-Go-files internal error. -/
def o6c : Oracle :=
  { okOracle with
    runner := .ok (.error (.internal "can\x27t run linters"
      "can\x27t run linters: no go files to analyze")) }

/-- Claim C6: if the work function returns an internal error whose private
description contains "no go files to analyze", finalization downgrades the
outcome to commit status success with the fixed message "No Go files to
analyze" and `Process` returns nil. -/
theorem c6_no_go_files (c : Config) (o : Oracle) (pr : PullRequest)
    (resLog : ResLog) (p pub priv : String)
    (h1 : o.getPullRequest = .ok pr)
    (hopen : (strToUpper pr.state == "MERGED"
        || strToUpper pr.state == "CLOSED") = false)
    (h2 : (setupOutcome c o).2 = .ok resLog)
    (h3 : o.getPatch = .ok p)
    (h4 : storePatch o = .ok none)
    (hprep : (prepareRepo c resLog o).2 = none)
    (hrun : o.runner = .ok (.error (.internal pub priv)))
    (hsub : strContains priv noGoFilesToAnalyzeErr = true) :
    (Process c o).1.filter isSetStatusEvent =
      [Event.setCommitStatus .pending "GolangCI is reviewing your Pull Request..." "",
       Event.setCommitStatus .success noGoFilesToAnalyzeMessage
         (commitStatusURL c pr.number)]
    ∧ (Process c o).2 = .ok none := by
  have hwork : work c pr resLog o =
      ((prepareRepo c resLog o).1, .failure none (.internal pub priv)) := by
    simp only [work]
    rw [hopen]
    simp only [Bool.false_eq_true, if_false]
    rw [hprep, hrun]
    rfl
  rw [process_eq_main c o pr resLog p h1 h2 h3 h4, hwork]
  have hclass : classifyOutcome c (.failure none (.internal pub priv)) =
      { res := none, status := .success, statusDesc := noGoFilesToAnalyzeMessage
        publicError := noGoFilesToAnalyzeMessage, retErr := none } := by
    simp [classifyOutcome, hsub]
  rw [hclass]
  constructor
  · simp only [List.filter_append,
      filter_setStatus_of_quiet (quiet_setupOutcome c o),
      filter_setStatus_of_quiet (quiet_queueStateEvents o),
      filter_setStatus_of_quiet (quiet_prepareRepo c resLog o)]
    simp [isSetStatusEvent, setCommitStatus, updateAnalysisState,
      isTerminalStatus]
  · rfl

/-- Claim C6 witness: a concrete run whose runner reports the no-Go-files
internal error. -/
theorem c6_no_go_files_witness :
    (Process cfgA o6c).1.filter isSetStatusEvent =
      [Event.setCommitStatus .pending "GolangCI is reviewing your Pull Request..." "",
       Event.setCommitStatus .success noGoFilesToAnalyzeMessage
         (commitStatusURL cfgA prEx.number)]
    ∧ (Process cfgA o6c).2 = .ok none :=
  c6_no_go_files cfgA o6c prEx [] "diff" "can\x27t run linters"
    "can\x27t run linters: no go files to analyze" rfl (by decide) rfl rfl rfl rfl
    rfl (by decide)

/-- Fixture: the runner panics with value "boom". -/
def o5c : Oracle := { okOracle with runner := .panicked "boom" }

/-- Fixture: the runner succeeds and the reporter panics with value
"boom". -/
def o5r : Oracle := { okOracle with report := .panicked "boom" }

/-- Claim C5 counterexample: the fixed public message of the recover handler is
"golangci-worker panic-ed", not "worker panic-ed" as the claim states. -/
theorem c5_panic_counterexample :
    (work cfgB prEx [] o5c).2
      = .failure none (.internal "golangci-worker panic-ed"
          "panic occured: boom, STACK")
    ∧ "golangci-worker panic-ed" ≠ "worker panic-ed" := by
  refine ⟨by decide, by decide⟩

/-- Claim C5 (amended): any panic inside the analysis work function — at
either panic site the recover boundary encloses, the analyzer run and the
reporter call — is converted into an internal error with the fixed public
message "golangci-worker panic-ed" and a private description containing the
panic value (a reporter panic keeps the runner result in the named return
value), and a panic escaping the queue task handlers (both `analyze` and
`analyzeV2` run through `analyzeWrappedV2`) becomes a returned error. -/
theorem c5_panic_amended (c : Config) (pr : PullRequest) (rl : ResLog)
    (o : Oracle) (v : String)
    (hopen : (strToUpper pr.state == "MERGED"
        || strToUpper pr.state == "CLOSED") = false)
    (hprep : (prepareRepo c rl o).2 = none) :
    ((o.runner = .panicked v →
        (work c pr rl o).2 =
          .failure none (.internal "golangci-worker panic-ed"
            ("panic occured: " ++ v ++ ", " ++ o.stack)))
      ∧ (∀ res, o.runner = .ok (.ok res) → o.report = .panicked v →
          (work c pr rl o).2 =
            .failure (some res) (.internal "golangci-worker panic-ed"
              ("panic occured: " ++ v ++ ", " ++ o.stack)))
      ∧ (∃ pre post,
          ("panic occured: " ++ v ++ ", " ++ o.stack) = pre ++ v ++ post))
    ∧ (∀ w s, ∃ m, analyzeWrappedV2 (.panicked w) s = some m) := by
  refine ⟨⟨?_, ?_, ?_⟩, ?_⟩
  · intro hrun
    simp only [work]
    rw [hopen]
    simp only [Bool.false_eq_true, if_false]
    rw [hprep, hrun]
    rfl
  · intro res hres hrep
    simp only [work]
    rw [hopen]
    simp only [Bool.false_eq_true, if_false]
    rw [hprep, hres, hrep]
    rfl
  · exact ⟨"panic occured: ", ", " ++ o.stack, by
      rw [String.append_assoc]⟩
  · intro w s
    exact ⟨"panic recovered: " ++ w ++ ", " ++ s, rfl⟩

/-- Claim C5 witness: the amended theorem at two concrete panicking runs,
one panicking in the analyzer run and one in the reporter call. -/
theorem c5_panic_witness :
    (work cfgB prEx [] o5c).2 =
      .failure none (.internal "golangci-worker panic-ed"
        ("panic occured: " ++ "boom" ++ ", " ++ o5c.stack))
    ∧ (work cfgB prEx [] o5r).2 =
      .failure (some { issues := [], resultJSON := "lintres" })
        (.internal "golangci-worker panic-ed"
          ("panic occured: " ++ "boom" ++ ", " ++ o5r.stack)) :=
  ⟨(c5_panic_amended cfgB prEx [] o5c "boom" (by decide) (by decide)).1.1 rfl,
   (c5_panic_amended cfgB prEx [] o5r "boom" (by decide) (by decide)).1.2.1
     { issues := [], resultJSON := "lintres" } rfl rfl⟩

/-- Claim C7: the derived check status is success "No issues found!" for an
empty issue list, failure "1 issue found" for one issue, and failure
"N issues found" (decimal N) for more than one issue. -/
theorem c7_issue_status (issues : List Issue) :
    (issues.length = 0 →
      getGithubStatusForIssues issues = (.success, "No issues found!"))
    ∧ (issues.length = 1 →
      getGithubStatusForIssues issues = (.failure, "1 issue found"))
    ∧ (1 < issues.length →
      getGithubStatusForIssues issues =
        (.failure, Nat.repr issues.length ++ " issues found")) := by
  refine ⟨?_, ?_, ?_⟩
  · intro h
    simp [getGithubStatusForIssues, h]
  · intro h
    simp [getGithubStatusForIssues, h]
  · intro h
    have h0 : (issues.length == 0) = false := beq_eq_false_iff_ne.mpr (by omega)
    have h1 : (issues.length == 1) = false := beq_eq_false_iff_ne.mpr (by omega)
    simp [getGithubStatusForIssues, h0, h1]

/-- Claim C7 witness: a two-issue list yields failure "2 issues found". -/
theorem c7_issue_status_witness :
    getGithubStatusForIssues [⟨"a"⟩, ⟨"b"⟩] = (.failure, "2 issues found") := by
  rw [(c7_issue_status [⟨"a"⟩, ⟨"b"⟩]).2.2 (by decide)]
  decide

/-- Claim C8 counterexample: with `WEB_ROOT` unset (empty) the details URL
passed for a terminal status is the relative path
"/r/github.com/o/n/pulls/7", not the empty string the claim requires. -/
theorem c8_details_url_counterexample :
    setCommitStatus cfgA prEx .success "No issues found!"
      = Event.setCommitStatus .success "No issues found!"
          "/r/github.com/o/n/pulls/7"
    ∧ "/r/github.com/o/n/pulls/7" ≠ "" := by
  refine ⟨by decide, by decide⟩

/-- Claim C8 (amended): the details URL is populated only for terminal
statuses and is empty for pending; when `WEB_ROOT` is unset (empty) the
details URL for a terminal status is the relative path
`/r/github.com/<owner>/<name>/pulls/<pr>` with an empty base, not the empty
string. -/
theorem c8_details_url_amended (c : Config) (pr : PullRequest) (d : String) :
    (setCommitStatus c pr .pending d = Event.setCommitStatus .pending d "")
    ∧ (∀ st, isTerminalStatus st = true →
        setCommitStatus c pr st d =
          Event.setCommitStatus st d
            (c.webRoot ++ "/r/github.com/" ++ c.owner ++ "/" ++ c.name ++
             "/pulls/" ++ Nat.repr pr.number))
    ∧ (c.webRoot = "" → ∀ st, isTerminalStatus st = true →
        setCommitStatus c pr st d =
          Event.setCommitStatus st d
            ("" ++ "/r/github.com/" ++ c.owner ++ "/" ++ c.name ++
             "/pulls/" ++ Nat.repr pr.number)) := by
  refine ⟨?_, ?_, ?_⟩
  · simp [setCommitStatus, isTerminalStatus]
  · intro st h
    simp [setCommitStatus, h, commitStatusURL]
  · intro hw st h
    simp [setCommitStatus, h, commitStatusURL, hw]

/-- Claim C8 witness: the amended theorem at a terminal status with
`WEB_ROOT` unset. -/
theorem c8_details_url_witness :
    setCommitStatus cfgA prEx .failure "1 issue found"
      = Event.setCommitStatus .failure "1 issue found"
          (cfgA.webRoot ++ "/r/github.com/" ++ cfgA.owner ++ "/" ++ cfgA.name ++
           "/pulls/" ++ Nat.repr prEx.number) :=
  (c8_details_url_amended cfgA prEx "1 issue found").2.1 .failure (by decide)

/-- Claim C9: executor derivation is non-mutating — `WithEnv`/`WithWorkDir`
return new executors, repeated writes to the same key are last-write-wins,
and the environment and working directory of the base executor are untouched. -/
theorem c9_executor_derivation (base : Executor) (k v v2 p : String) :
    ((base.withEnv k v).withEnv k v2).getEnv k = some v2
    ∧ (base.withEnv k v).wd = base.wd
    ∧ (∀ k', k' ≠ k → (base.withEnv k v).getEnv k' = base.getEnv k')
    ∧ (base.withWorkDir p).env = base.env
    ∧ (base.withWorkDir p).wd = p := by
  refine ⟨?_, rfl, ?_, rfl, rfl⟩
  · simp [Executor.withEnv, Executor.setEnv, Executor.getEnv,
      List.reverse_append]
  · intro k' hk
    have hbeq : (k == k') = false := beq_eq_false_iff_ne.mpr (Ne.symm hk)
    simp [Executor.withEnv, Executor.setEnv, Executor.getEnv,
      List.reverse_append, List.find?, hbeq]

/-- Claim C9 witness: the derivation laws at concrete keys. -/
theorem c9_executor_derivation_witness :
    ((baseExecEx.withEnv "K" "1").withEnv "K" "2").getEnv "K" = some "2"
    ∧ (baseExecEx.withEnv "K" "1").getEnv "J" = baseExecEx.getEnv "J" :=
  ⟨(c9_executor_derivation baseExecEx "K" "1" "2" "/w").1,
   (c9_executor_derivation baseExecEx "K" "1" "2" "/w").2.2.1 "J" (by decide)⟩

/-- Claim C10: if creating the temporary patch file fails, `storePatch`
panics on the nil file handle in the deferred `os.Remove(f.Name())` instead
of returning the error; after a successful temp-file creation it returns an
error exactly when writing or copying the patch fails. -/
theorem c10_store_patch (o : Oracle) :
    ((∃ e, o.tempFile = .error e) → storePatch o = .panicked nilPointerPanic)
    ∧ (∀ fname, o.tempFile = .ok fname →
        ((∃ m, storePatch o = .ok (some m)) ↔
          (o.writePatch ≠ none ∨ o.copyPatch ≠ none))) := by
  constructor
  · rintro ⟨e, he⟩
    simp [storePatch, he]
  · intro fname hf
    unfold storePatch
    rw [hf]
    cases hw : o.writePatch with
    | some m => simp
    | none =>
      cases hc : o.copyPatch with
      | some m => simp
      | none => simp

/-- Claim C10 witness: a failed temp-file creation panics with the nil
pointer dereference. -/
theorem c10_store_patch_witness :
    storePatch { okOracle with tempFile := .error "EMFILE" }
      = .panicked nilPointerPanic :=
  (c10_store_patch { okOracle with tempFile := .error "EMFILE" }).1
    ⟨"EMFILE", rfl⟩

end GolangciWorker
